import Mathlib

/-!
# Verification of the inniImage route handlers

Shallow embedding of `routes/study_participation.py`, `routes/study_creation.py`
and the upload helper of `routes/study_creation.py` from the inniImage
repository, together with proofs of the behavioural claims about them.

Model helpers that live in `models/` and `utils/` (not part of the route
sources) are written from the specification and are marked
`Modelled from the spec:` in their doc comments.
-/

namespace InniImage

/-- A JSON-style value as it appears in request bodies, session entries and
step data dictionaries. -/
inductive Value where
  | null
  | bool (b : Bool)
  | int (n : Int)
  | str (s : String)
deriving DecidableEq, Repr

/-- Python truthiness for the values we model: `None`, `False`, `0` and the
empty string are falsy. -/
def truthy : Value → Bool
  | .null => false
  | .bool b => b
  | .int n => n != 0
  | .str s => s != ""

/-- Extract the string payload of a value (session ids are stored as strings). -/
def vstr : Value → String
  | .str s => s
  | _ => ""

/-- The Flask session object, a string-keyed dictionary. -/
def Session := List (String × Value)
deriving DecidableEq

/-- `session.get(k)`: the stored value, `None` when the key is absent. -/
def sget (s : Session) (k : String) : Value :=
  match s.find? (fun p => p.1 == k) with
  | some p => p.2
  | none => .null

/-- `session[k] = v`. -/
def sset (s : Session) (k : String) (v : Value) : Session :=
  s.filter (fun p => p.1 != k) ++ [(k, v)]

/-- `session.pop(k, None)`. -/
def spop (s : Session) (k : String) : Session :=
  s.filter (fun p => p.1 != k)

/-- Ambient request environment: whether database saves succeed, the uuid
generated for this request, and the current time. -/
structure Env where
  save_ok : Bool := true
  fresh_uuid : String := "uuid-0"
  now : Int := 0
  now_iso : String := "1970-01-01T00:00:00"
deriving DecidableEq, Repr

/-- A mongoengine `save()` call: succeeds or raises an `OperationError`. -/
def db_save (env : Env) : Except String Unit :=
  if env.save_ok then .ok () else .error "OperationError: could not save document"

/-- An optional ISO timestamp field of a JSON request body, as seen by
`datetime.fromisoformat(data.get(...))`: absent, malformed, or parseable. -/
inductive TimeField where
  | missing
  | invalid (s : String)
  | valid (t : Int)
deriving DecidableEq, Repr

/-- Shallow model of `datetime.fromisoformat` applied to an optional field:
a missing field (`None`) raises `TypeError`, a malformed string raises
`ValueError`, a well-formed ISO string parses to a timestamp. -/
def fromisoformat : TimeField → Except String Int
  | .missing => .error "TypeError: fromisoformat: argument must be str"
  | .invalid s => .error ("ValueError: Invalid isoformat string: " ++ s)
  | .valid t => .ok t

/-- `datetime.fromisoformat(x) if x else None`, used for interaction
timestamps in `complete_task`. -/
def parseOptTime : TimeField → Except String (Option Int)
  | .missing => .ok none
  | .invalid s => .error ("ValueError: Invalid isoformat string: " ++ s)
  | .valid t => .ok (some t)

/-- `IPEDParameters` embedded document of a `Study`. -/
structure IPEDParameters where
  num_elements : Nat := 0
  tasks_per_consumer : Nat := 0
  number_of_respondents : Nat := 0
  min_active_elements : Nat := 0
  max_active_elements : Nat := 0
  total_tasks : Nat := 0
deriving DecidableEq, Repr

/-- `RatingScale` embedded document of a `Study`. -/
structure RatingScale where
  min_value : Int := 1
  max_value : Int := 5
  min_label : String := ""
  max_label : String := ""
  middle_label : String := ""
deriving DecidableEq, Repr

/-- `StudyElement` embedded document of a `Study`. -/
structure StudyElement where
  element_id : String := ""
  name : String := ""
  description : String := ""
  element_type : String := ""
  content : String := ""
  alt_text : String := ""
deriving DecidableEq, Repr, Inhabited

/-- `ClassificationQuestion` embedded document of a `Study` (also the shape of
a question dictionary built by wizard step 2b). -/
structure ClassificationQuestion where
  question_id : String := ""
  question_text : String := ""
  question_type : String := "single_choice"
  answer_options : List String := []
  is_required : Bool := false
  order : Nat := 0
deriving DecidableEq, Repr, Inhabited

/-- One generated task of the task matrix: a task id and the 0/1 visibility
flag for every element id. -/
structure TaskSpec where
  task_id : String := ""
  elements_shown : List (String × Nat) := []
deriving DecidableEq, Repr, Inhabited

/-- The persisted `Study` document (the fields the routes read and write). -/
structure Study where
  title : String := ""
  background : String := ""
  language : String := "en"
  main_question : String := ""
  orientation_text : String := ""
  study_type : String := "image"
  share_token : String := ""
  status : String := "draft"
  rating_scale : RatingScale := {}
  elements : List StudyElement := []
  classification_questions : List ClassificationQuestion := []
  iped_parameters : IPEDParameters := {}
  tasks : List (Nat × List TaskSpec) := []
  total_responses : Nat := 0
  completed_responses : Nat := 0
  abandoned_responses : Nat := 0
deriving DecidableEq, Repr

/-- Modelled from the spec: `Study.get_respondent_tasks` lives in
`models/study.py`, which is not under `src/`. The participation routes use it
as "Get respondent's tasks": the battery of tasks assigned to the given
respondent id in the study's task matrix, empty when the respondent has none. -/
def Study.get_respondent_tasks (s : Study) (respondent_id : Nat) : List TaskSpec :=
  match s.tasks.find? (fun p => p.1 == respondent_id) with
  | some p => p.2
  | none => []

/-- `ElementInteraction` embedded document of a completed task. -/
structure ElementInteraction where
  element_id : String
  view_time_seconds : Int := 0
  hover_count : Nat := 0
  click_count : Nat := 0
  first_view_time : Option Int := none
  last_view_time : Option Int := none
deriving DecidableEq, Repr

/-- `CompletedTask` embedded document of a `StudyResponse`. -/
structure CompletedTask where
  task_id : String := ""
  respondent_id : Nat := 0
  task_index : Nat := 0
  elements_shown_in_task : List (String × Nat) := []
  task_start_time : Int := 0
  task_completion_time : Int := 0
  task_duration_seconds : Int := 0
  rating_given : Value := .null
  rating_timestamp : Int := 0
  element_interactions : List ElementInteraction := []
deriving DecidableEq, Repr

/-- The persisted `StudyResponse` document. The `study` reference field is
modelled by the share token of the referenced study. -/
structure StudyResponse where
  study_token : String := ""
  session_id : String := ""
  respondent_id : Nat := 0
  total_tasks_assigned : Nat := 0
  completed_tasks : List CompletedTask := []
  current_task_index : Nat := 0
  is_completed : Bool := false
  is_abandoned : Bool := false
  abandonment_reason : String := ""
  personal_info : List (String × Value) := []
  classification_answers_count : Nat := 0
  ip_address : String := ""
  user_agent : String := ""
  browser_info : List (String × String) := []
deriving DecidableEq, Repr

/-- Modelled from the spec: `completed_tasks_count` of `models/response.py`
is not under `src/`; the spec's data model keeps completed tasks as an array
of sub-documents, so the count is the length of that array. -/
def StudyResponse.completed_tasks_count (r : StudyResponse) : Nat :=
  r.completed_tasks.length

/-- Modelled from the spec: `StudyResponse.add_completed_task` appends the
completed-task sub-document to the response's array of completed tasks. -/
def StudyResponse.add_completed_task (r : StudyResponse) (t : CompletedTask) :
    StudyResponse :=
  { r with completed_tasks := r.completed_tasks ++ [t] }

/-- Modelled from the spec: `StudyResponse.mark_completed` marks the response
as completed. -/
def StudyResponse.mark_completed (r : StudyResponse) : StudyResponse :=
  { r with is_completed := true }

/-- Modelled from the spec: `StudyResponse.mark_abandoned` marks the response
as abandoned with the given reason. -/
def StudyResponse.mark_abandoned (r : StudyResponse) (reason : String) :
    StudyResponse :=
  { r with is_abandoned := true, abandonment_reason := reason }

/-- The persisted `TaskSession` document (the fields the routes touch). -/
structure TaskSession where
  session_id : String := ""
  task_id : String := ""
  page_transitions : List String := []
  completed : Bool := false
deriving DecidableEq, Repr

/-- Modelled from the spec: `TaskSession.add_page_transition` records the
transition label. -/
def TaskSession.add_page_transition (ts : TaskSession) (label : String) :
    TaskSession :=
  { ts with page_transitions := ts.page_transitions ++ [label] }

/-- Modelled from the spec: `TaskSession.mark_completed` marks the task
session completed. -/
def TaskSession.mark_completed (ts : TaskSession) : TaskSession :=
  { ts with completed := true }

/-- The slice of database and session state the participation routes use. -/
structure PartState where
  session : Session := []
  studies : List Study := []
  responses : List StudyResponse := []
  task_sessions : List TaskSession := []
deriving DecidableEq

/-- `Study.objects(share_token=token).first()`. -/
def findStudy (st : PartState) (token : String) : Option Study :=
  st.studies.find? (fun s => s.share_token == token)

/-- `StudyResponse.objects(session_id=sid).first()`. -/
def findResponse (st : PartState) (sid : String) : Option StudyResponse :=
  st.responses.find? (fun r => r.session_id == sid)

/-- `TaskSession.objects(session_id=sid, task_id=tid).first()`. -/
def findTaskSession (st : PartState) (sid tid : String) : Option TaskSession :=
  st.task_sessions.find? (fun ts => ts.session_id == sid && ts.task_id == tid)

/-- Persist an updated response document: replace the stored response with
the same session id. -/
def replaceResponse (rs : List StudyResponse) (r : StudyResponse) :
    List StudyResponse :=
  rs.map (fun q => if q.session_id == r.session_id then r else q)

/-- Persist an updated study document: replace the stored study with the same
share token. -/
def replaceStudy (ss : List Study) (s : Study) : List Study :=
  ss.map (fun q => if q.share_token == s.share_token then s else q)

/-- Persist an updated task session document. -/
def replaceTaskSession (ts : List TaskSession) (t : TaskSession) :
    List TaskSession :=
  ts.map (fun q => if q.session_id == t.session_id && q.task_id == t.task_id
    then t else q)

/-- Modelled from the spec: `Study.get_available_respondent_id` is in
`models/study.py`, not under `src/`. `start_study` uses it as "Get next
available respondent ID" and treats `None` as "Study is full": the smallest
respondent index below `number_of_respondents` not already taken by a
response to this study, `none` when every slot is taken. -/
def get_available_respondent_id (study : Study) (st : PartState) : Option Nat :=
  (List.range study.iped_parameters.number_of_respondents).find?
    (fun r => !(st.responses.any
      (fun q => q.study_token == study.share_token && q.respondent_id == r)))

/-- Result of a participation route: an abort, a redirect to an endpoint, a
rendered template, or a JSON body with a status code. -/
inductive PRes where
  | abortR (code : Nat)
  | redirect (endpoint : String)
  | render (template : String)
  | json (code : Nat) (body : List (String × Value))
deriving DecidableEq, Repr

/-- Request headers and metadata captured by `start_study`. -/
structure BrowserInfo where
  remote_addr : String := ""
  user_agent : String := ""
  accept_language : String := ""
  accept_encoding : String := ""
deriving DecidableEq, Repr

/-- One entry of the `element_interactions` array of a `complete_task`
request body. -/
structure InteractionReq where
  element_id : Option String := none
  view_time : Int := 0
  hover_count : Nat := 0
  click_count : Nat := 0
  first_view_time : TimeField := .missing
  last_view_time : TimeField := .missing
deriving DecidableEq, Repr

/-- The JSON body of a `complete_task` request. -/
structure CompleteReq where
  rating : Value := .null
  task_start_time : TimeField := .missing
  element_interactions : List InteractionReq := []
deriving DecidableEq, Repr

/-- The interaction-building loop of `complete_task` (lines 327-336): a
missing `element_id` raises `KeyError`, malformed view timestamps raise in
`fromisoformat`. -/
def parseInteractions : List InteractionReq → Except String (List ElementInteraction)
  | [] => .ok []
  | d :: rest => do
    let eid ← match d.element_id with
      | none => Except.error "KeyError: element_id"
      | some s => Except.ok s
    let fv ← parseOptTime d.first_view_time
    let lv ← parseOptTime d.last_view_time
    let tail ← parseInteractions rest
    .ok ({ element_id := eid, view_time_seconds := d.view_time,
           hover_count := d.hover_count, click_count := d.click_count,
           first_view_time := fv, last_view_time := lv } :: tail)

namespace study_participation

/-- `study_welcome` (study_participation.py lines 10-24). -/
def study_welcome (share_token : String) (st : PartState) : PRes :=
  match findStudy st share_token with
  | none => .abortR 404
  | some study =>
    if study.status != "active" then
      .render "study_participation/study_inactive.html"
    else if truthy (sget st.session "study_session_id") then
      .redirect "study_participation.study_orientation"
    else
      .render "study_participation/welcome.html"

/-- `start_study` (study_participation.py lines 26-72). The route has no
`try/except`, so a failing database save escapes. -/
def start_study (env : Env) (share_token : String) (info : BrowserInfo)
    (st : PartState) : Except String (PRes × PartState) :=
  match findStudy st share_token with
  | none => .ok (.json 404 [("error", .str "Study not found or inactive")], st)
  | some study =>
    if study.status != "active" then
      .ok (.json 404 [("error", .str "Study not found or inactive")], st)
    else
      let session_id := env.fresh_uuid
      match get_available_respondent_id study st with
      | none => .ok (.json 400 [("error", .str "Study is full")], st)
      | some respondent_id => do
        let study_response : StudyResponse :=
          { study_token := study.share_token, session_id := session_id,
            respondent_id := respondent_id,
            total_tasks_assigned := study.iped_parameters.tasks_per_consumer,
            ip_address := info.remote_addr, user_agent := info.user_agent,
            browser_info :=
              [("accept_language", info.accept_language),
               ("accept_encoding", info.accept_encoding),
               ("user_agent", info.user_agent)] }
        db_save env
        let st1 := { st with responses := st.responses ++ [study_response] }
        let study1 := { study with total_responses := study.total_responses + 1 }
        db_save env
        let st2 := { st1 with studies := replaceStudy st1.studies study1 }
        let sess :=
          sset (sset (sset st2.session "study_session_id" (.str session_id))
            "study_share_token" (.str share_token))
            "respondent_id" (.int respondent_id)
        .ok (.json 200
          [("success", .bool true), ("session_id", .str session_id),
           ("respondent_id", .int respondent_id),
           ("redirect_url", .str "study_participation.classification_questions")],
          { st2 with session := sess })

/-- `task_page` (study_participation.py lines 199-233). -/
def task_page (share_token : String) (task_index : Nat) (st : PartState) : PRes :=
  match findStudy st share_token with
  | none => .abortR 404
  | some study =>
    if study.status != "active" then .abortR 404
    else
      let sidv := sget st.session "study_session_id"
      if !truthy sidv then .redirect "study_participation.study_welcome"
      else
        match findResponse st (vstr sidv) with
        | none => .redirect "study_participation.study_welcome"
        | some study_response =>
          let respondent_tasks :=
            study.get_respondent_tasks study_response.respondent_id
          if respondent_tasks.isEmpty || task_index ≥ respondent_tasks.length then
            .abortR 404
          else
            .render "study_participation/task.html"

/-- `start_task` (study_participation.py lines 235-279). The route has no
`try/except`, so a failing save escapes; the study is taken from the
response's reference, not from the share token. -/
def start_task (env : Env) (share_token : String) (task_index : Nat)
    (st : PartState) : Except String (PRes × PartState) :=
  let sidv := sget st.session "study_session_id"
  if !truthy sidv then .ok (.json 400 [("error", .str "No active session")], st)
  else
    match findResponse st (vstr sidv) with
    | none => .ok (.json 400 [("error", .str "Study response not found")], st)
    | some study_response =>
      match findStudy st study_response.study_token with
      | none => .error "DoesNotExist: Study matching query does not exist."
      | some study =>
        let respondent_tasks :=
          study.get_respondent_tasks study_response.respondent_id
        if respondent_tasks.isEmpty || task_index ≥ respondent_tasks.length then
          .ok (.json 400 [("error", .str "Invalid task index")], st)
        else
          let current_task := respondent_tasks.getD task_index default
          do
            let st1 ←
              match findTaskSession st (vstr sidv) current_task.task_id with
              | some _ => pure st
              | none => do
                let ts : TaskSession :=
                  { session_id := vstr sidv, task_id := current_task.task_id }
                let ts := ts.add_page_transition "task_start"
                db_save env
                pure { st with task_sessions := st.task_sessions ++ [ts] }
            let response1 :=
              { study_response with current_task_index := task_index }
            db_save env
            pure (.json 200
              [("success", .bool true),
               ("task_id", .str current_task.task_id),
               ("start_time", .str env.now_iso)],
              { st1 with responses := replaceResponse st1.responses response1 })

/-- The task-session lookup-and-mark step of `complete_task` (lines 342-350)
as a state transformer: when a task session matches, it is marked completed
(one database save), otherwise the state is untouched. -/
def update_task_session (env : Env) (st1 : PartState)
    (session_id tid : String) : Except String PartState :=
  match findTaskSession st1 session_id tid with
  | some ts => do
    db_save env
    pure { st1 with
      task_sessions := replaceTaskSession st1.task_sessions ts.mark_completed }
  | none => pure st1

/-- The state produced by a successful `update_task_session`. -/
def taskSessionResult (st1 : PartState) (session_id tid : String) : PartState :=
  match findTaskSession st1 session_id tid with
  | some ts =>
    { st1 with
      task_sessions := replaceTaskSession st1.task_sessions ts.mark_completed }
  | none => st1

/-- The body of the `try` block of `complete_task` (lines 294-388). Returns
the route result and the updated state, or the raised exception. -/
def complete_task_try (env : Env) (share_token : String) (task_index : Nat)
    (req : CompleteReq) (session_id : String) (study_response : StudyResponse)
    (study : Study) (st : PartState) : Except String (PRes × PartState) := do
  let rating := req.rating
  let task_start_time ← fromisoformat req.task_start_time
  if !truthy rating then
    return (.json 400 [("error", .str "Rating is required")], st)
  let respondent_tasks := study.get_respondent_tasks study_response.respondent_id
  if respondent_tasks.isEmpty || task_index ≥ respondent_tasks.length then
    return (.json 400 [("error", .str "Invalid task index")], st)
  let current_task := respondent_tasks.getD task_index default
  let task_completion_time := env.now
  let interactions ← parseInteractions req.element_interactions
  let completed_task_data : CompletedTask :=
    { task_id := current_task.task_id,
      respondent_id := study_response.respondent_id,
      task_index := task_index,
      elements_shown_in_task := current_task.elements_shown,
      task_start_time := task_start_time,
      task_completion_time := task_completion_time,
      task_duration_seconds := task_completion_time - task_start_time,
      rating_given := rating,
      rating_timestamp := task_completion_time,
      element_interactions := interactions }
  let response1 := study_response.add_completed_task completed_task_data
  db_save env
  let st1 := { st with responses := replaceResponse st.responses response1 }
  let st2 ← update_task_session env st1 session_id current_task.task_id
  if response1.completed_tasks_count ≥ response1.total_tasks_assigned then do
    let response2 := response1.mark_completed
    db_save env
    let st3 := { st2 with responses := replaceResponse st2.responses response2 }
    let study1 := { study with completed_responses := study.completed_responses + 1 }
    db_save env
    let st4 := { st3 with studies := replaceStudy st3.studies study1 }
    return (.json 200
      [("success", .bool true), ("study_completed", .bool true),
       ("redirect_url", .str "study_participation.study_completed")], st4)
  else
    let next_task_index := task_index + 1
    if next_task_index < respondent_tasks.length then
      return (.json 200
        [("success", .bool true), ("study_completed", .bool false),
         ("redirect_url",
          .str ("study_participation.task_page/" ++ toString next_task_index))],
        st2)
    else do
      let response2 := response1.mark_completed
      db_save env
      let st3 := { st2 with responses := replaceResponse st2.responses response2 }
      let study1 := { study with completed_responses := study.completed_responses + 1 }
      db_save env
      let st4 := { st3 with studies := replaceStudy st3.studies study1 }
      return (.json 200
        [("success", .bool true), ("study_completed", .bool true),
         ("redirect_url", .str "study_participation.study_completed")], st4)

/-- `complete_task` (study_participation.py lines 281-391). The session and
response lookups and the study dereference happen before the `try` block;
everything inside the `try` is converted to a JSON 500 on exception. -/
def complete_task (env : Env) (share_token : String) (task_index : Nat)
    (req : CompleteReq) (st : PartState) : Except String (PRes × PartState) :=
  let sidv := sget st.session "study_session_id"
  if !truthy sidv then .ok (.json 400 [("error", .str "No active session")], st)
  else
    match findResponse st (vstr sidv) with
    | none => .ok (.json 400 [("error", .str "Study response not found")], st)
    | some study_response =>
      match findStudy st study_response.study_token with
      | none => .error "DoesNotExist: Study matching query does not exist."
      | some study =>
        match complete_task_try env share_token task_index req (vstr sidv)
            study_response study st with
        | .ok out => .ok out
        | .error e => .ok (.json 500 [("error", .str e)], st)

/-- `study_completed` (study_participation.py lines 393-414). -/
def study_completed (share_token : String) (st : PartState) :
    PRes × PartState :=
  match findStudy st share_token with
  | none => (.abortR 404, st)
  | some _ =>
    let sidv := sget st.session "study_session_id"
    if !truthy sidv then (.redirect "study_participation.study_welcome", st)
    else
      match findResponse st (vstr sidv) with
      | none => (.redirect "study_participation.study_welcome", st)
      | some _ =>
        let sess :=
          spop (spop (spop st.session "study_session_id") "study_share_token")
            "respondent_id"
        (.render "study_participation/completed.html",
          { st with session := sess })

/-- The body of the `try` block of `abandon_study` (lines 427-445). -/
def abandon_study_try (env : Env) (reason : Option String)
    (study_response : StudyResponse) (st : PartState) :
    Except String (PRes × PartState) := do
  let reason := reason.getD "User abandoned study"
  let response1 := study_response.mark_abandoned reason
  db_save env
  let st1 := { st with responses := replaceResponse st.responses response1 }
  match findStudy st1 study_response.study_token with
  | none => Except.error "DoesNotExist: Study matching query does not exist."
  | some study => do
    let study1 := { study with abandoned_responses := study.abandoned_responses + 1 }
    db_save env
    let st2 := { st1 with studies := replaceStudy st1.studies study1 }
    let sess :=
      spop (spop (spop st2.session "study_session_id") "study_share_token")
        "respondent_id"
    return (.json 200 [("success", .bool true)], { st2 with session := sess })

/-- `abandon_study` (study_participation.py lines 416-448). Everything after
the response lookup runs inside a `try` whose handler returns a JSON 500. -/
def abandon_study (env : Env) (share_token : String) (reason : Option String)
    (st : PartState) : Except String (PRes × PartState) :=
  let sidv := sget st.session "study_session_id"
  if !truthy sidv then .ok (.json 400 [("error", .str "No active session")], st)
  else
    match findResponse st (vstr sidv) with
    | none => .ok (.json 400 [("error", .str "Study response not found")], st)
    | some study_response =>
      match abandon_study_try env reason study_response st with
      | .ok out => .ok out
      | .error e => .ok (.json 500 [("error", .str e)], st)

end study_participation

/-! ## Study-creation wizard -/

/-- Data stored by wizard step 1a. -/
structure Step1aData where
  title : String := ""
  background : String := ""
  language : String := "en"
  terms_accepted : Bool := false
deriving DecidableEq, Repr

/-- Data stored by wizard step 1b. -/
structure Step1bData where
  study_type : String := "image"
  main_question : String := ""
  orientation_text : String := ""
deriving DecidableEq, Repr

/-- Data stored by wizard step 1c. -/
structure Step1cData where
  min_value : Int := 1
  max_value : Int := 5
  min_label : String := ""
  max_label : String := ""
  middle_label : String := ""
deriving DecidableEq, Repr

/-- One element dictionary built by wizard step 2a. -/
structure ElementData where
  element_id : String := ""
  name : String := ""
  description : String := ""
  alt_text : String := ""
  element_type : String := ""
  content : String := ""
deriving DecidableEq, Repr, Inhabited

/-- Data stored by wizard step 2a. -/
structure Step2aData where
  elements : List ElementData := []
  study_type : String := "image"
  num_elements : Nat := 0
deriving DecidableEq, Repr

/-- Data stored by wizard step 2b. -/
structure Step2bData where
  questions : List ClassificationQuestion := []
deriving DecidableEq, Repr

/-- Data stored by wizard step 2c. -/
structure Step2cData where
  num_elements : Nat := 0
  tasks_per_consumer : Nat := 0
  number_of_respondents : Nat := 0
  min_active_elements : Nat := 0
  max_active_elements : Nat := 0
  total_tasks : Nat := 0
deriving DecidableEq, Repr

/-- Data stored by wizard step 3a. -/
structure Step3aData where
  tasks_matrix : List (Nat × List TaskSpec) := []
  regenerate_matrix : Bool := false
deriving DecidableEq, Repr

/-- Data stored by wizard step 3b. -/
structure Step3bData where
  launch_study : Bool := false
deriving DecidableEq, Repr

/-- The persisted `StudyDraft` document. -/
structure StudyDraft where
  draft_id : Nat := 0
  current_step : String := "1a"
  is_complete : Bool := false
  step1a_data : Option Step1aData := none
  step1b_data : Option Step1bData := none
  step1c_data : Option Step1cData := none
  step2a_data : Option Step2aData := none
  step2b_data : Option Step2bData := none
  step2c_data : Option Step2cData := none
  step3a_data : Option Step3aData := none
  step3b_data : Option Step3bData := none
deriving DecidableEq, Repr

/-- The eight wizard steps, in their fixed order. -/
inductive StepId where
  | s1a | s1b | s1c | s2a | s2b | s2c | s3a | s3b
deriving DecidableEq, Repr

/-- The name of a wizard step as used in `draft.current_step`. -/
def StepId.name : StepId → String
  | .s1a => "1a" | .s1b => "1b" | .s1c => "1c" | .s2a => "2a"
  | .s2b => "2b" | .s2c => "2c" | .s3a => "3a" | .s3b => "3b"

/-- The next wizard step in the fixed order, `none` after the last. -/
def StepId.next : StepId → Option StepId
  | .s1a => some .s1b | .s1b => some .s1c | .s1c => some .s2a
  | .s2a => some .s2b | .s2b => some .s2c | .s2c => some .s3a
  | .s3a => some .s3b | .s3b => none

/-- The route endpoint of a wizard step. -/
def StepId.route : StepId → String
  | .s1a => "study_creation.step1a" | .s1b => "study_creation.step1b"
  | .s1c => "study_creation.step1c" | .s2a => "study_creation.step2a"
  | .s2b => "study_creation.step2b" | .s2c => "study_creation.step2c"
  | .s3a => "study_creation.step3a" | .s3b => "study_creation.step3b"

/-- Where a step redirects when its access guard fails (the preceding step;
step 1a falls back to the index route). -/
def StepId.guardRedirect : StepId → String
  | .s1a => "study_creation.index"
  | .s1b => "study_creation.step1a" | .s1c => "study_creation.step1b"
  | .s2a => "study_creation.step1c" | .s2b => "study_creation.step2a"
  | .s2c => "study_creation.step2b" | .s3a => "study_creation.step2c"
  | .s3b => "study_creation.step3a"

/-- The steps strictly before a given step in the fixed order. -/
def StepId.before : StepId → List StepId
  | .s1a => []
  | .s1b => [.s1a]
  | .s1c => [.s1a, .s1b]
  | .s2a => [.s1a, .s1b, .s1c]
  | .s2b => [.s1a, .s1b, .s1c, .s2a]
  | .s2c => [.s1a, .s1b, .s1c, .s2a, .s2b]
  | .s3a => [.s1a, .s1b, .s1c, .s2a, .s2b, .s2c]
  | .s3b => [.s1a, .s1b, .s1c, .s2a, .s2b, .s2c, .s3a]

/-- Whether a draft has saved data for a step (`bool(draft.stepX_data)`). -/
def StudyDraft.hasData (d : StudyDraft) : StepId → Bool
  | .s1a => d.step1a_data.isSome
  | .s1b => d.step1b_data.isSome
  | .s1c => d.step1c_data.isSome
  | .s2a => d.step2a_data.isSome
  | .s2b => d.step2b_data.isSome
  | .s2c => d.step2c_data.isSome
  | .s3a => d.step3a_data.isSome
  | .s3b => d.step3b_data.isSome

/-- Modelled from the spec: `StudyDraft.can_access_step` lives in
`models/study_draft.py`, which is not under `src/`. The spec's invariant is
"a draft cannot skip wizard steps": a step may be viewed iff every earlier
wizard step already has saved data. -/
def StudyDraft.can_access_step (d : StudyDraft) (s : StepId) : Bool :=
  s.before.all d.hasData

/-- Modelled from the spec: `StudyDraft.can_proceed_to_step` likewise;
submitting a step requires the same completed-previous-steps condition. -/
def StudyDraft.can_proceed_to_step (d : StudyDraft) (s : StepId) : Bool :=
  s.before.all d.hasData

/-! ### File uploads -/

/-- An uploaded file as handed to the route by the framework: its filename
and its size in megabytes. -/
structure UploadedFile where
  filename : String := ""
  size_mb : ℚ := 0
deriving DecidableEq, Repr

/-- Modelled from the spec: `is_valid_image_file` is in
`utils/azure_storage.py`, not under `src/`. A filename is a valid image iff
it carries one of the allowed image extensions (the extension list of
`routes/app.py`). -/
def is_valid_image_file (filename : String) : Bool :=
  [".jpg", ".png", ".gif", ".jpeg", ".webp"].any
    (fun e => List.isSuffixOf e.data filename.data)

/-- Modelled from the spec: `get_file_size_mb` of `utils/azure_storage.py`
returns the size of the uploaded file in megabytes. -/
def get_file_size_mb (f : UploadedFile) : ℚ :=
  f.size_mb

/-- Modelled from the spec: `upload_to_azure` of `utils/azure_storage.py`
uploads the file to Azure Blob Storage and returns the blob URL ("file
uploads proxied to blob storage"). -/
def upload_to_azure (f : UploadedFile) : String :=
  "https://inniimage.blob.core.windows.net/uploads/" ++ f.filename

namespace study_creation

/-- `save_uploaded_file` (study_creation.py lines 29-44): validate the file
type and the 16 MB size limit, then upload to Azure and return the URL;
`None` on any failure. -/
def save_uploaded_file (file : Option UploadedFile) (study_id : String) :
    Option String :=
  match file with
  | some f =>
    if f.filename != "" then
      if !is_valid_image_file f.filename then none
      else if get_file_size_mb f > 16 then none
      else some (upload_to_azure f)
    else none
  | none => none

end study_creation

/-- Modelled from the spec: `Study.generate_tasks` lives in
`models/study.py`, not under `src/`. Per the spec it is a "modest
combinatorial routine": "pick N of M elements per task, repeat per
respondent, with simple balancing". For respondent `r`, task `t`, it marks a
sliding window of `k` consecutive elements active (`k` cycling between
`min_active_elements` and `max_active_elements`, the window offset rotating
with `r` and `t` for balance) and encodes each element as a 0/1 flag. -/
def generate_task (p : IPEDParameters) (r t : Nat) : TaskSpec :=
  let span := p.max_active_elements - p.min_active_elements + 1
  let k := p.min_active_elements + (r * p.tasks_per_consumer + t) % span
  let offset := (r + t) % (p.num_elements - k + 1)
  { task_id := toString r ++ "_" ++ toString t,
    elements_shown := (List.range p.num_elements).map (fun i =>
      ("E" ++ toString (i + 1),
        if offset ≤ i ∧ i < offset + k then 1 else 0)) }

/-- Modelled from the spec: the full task matrix — one battery of
`tasks_per_consumer` tasks for each of the `number_of_respondents`
respondents. -/
def Study.generate_tasks (s : Study) : List (Nat × List TaskSpec) :=
  let p := s.iped_parameters
  (List.range p.number_of_respondents).map (fun r =>
    (r, (List.range p.tasks_per_consumer).map (fun t => generate_task p r t)))

/-- The number of elements shown (flag 1) in a task. -/
def TaskSpec.activeCount (task : TaskSpec) : Nat :=
  task.elements_shown.countP (fun pr => pr.2 == 1)

namespace study_creation

/-- HTTP method of a wizard request. -/
inductive Method where
  | get | post
deriving DecidableEq, Repr

/-- One row of the dynamic element form of step 2a
(`element_{i}_name`, `element_{i}_image`, `element_{i}_current_image`, ...;
missing form fields read as empty strings). -/
structure ElemForm where
  name : String := ""
  description : String := ""
  alt_text : String := ""
  image : Option UploadedFile := none
  current_image : String := ""
  content : String := ""
deriving DecidableEq, Repr, Inhabited

/-- Step 2c form fields (`Step2cIPEDParametersForm` integer fields). -/
structure Step2cForm where
  num_elements : Nat := 0
  tasks_per_consumer : Nat := 0
  number_of_respondents : Nat := 0
  min_active_elements : Nat := 0
  max_active_elements : Nat := 0
deriving DecidableEq, Repr

/-- A wizard request: the method, whether the WTForms validation of this
step's form succeeds, and the submitted form data of every step form. -/
structure WReq where
  method : Method := .get
  form_valid : Bool := false
  f1a : Step1aData := {}
  f1b : Step1bData := {}
  f1c : Step1cData := {}
  num_elements : Nat := 4
  elements_form : List ElemForm := []
  num_questions : Nat := 2
  questions_form : List ClassificationQuestion := []
  f2c : Step2cForm := {}
  regenerate_matrix : Bool := false
  launch_study : Bool := false
deriving DecidableEq, Repr

/-- `form.validate_on_submit()`: a POST whose form validates. -/
def validate_on_submit (req : WReq) : Bool :=
  req.method == .post && req.form_valid

/-- The element form row for index `i` (missing rows read as empty fields,
like `request.form.get` defaulting to an empty value). -/
def elemForm (req : WReq) (i : Nat) : ElemForm :=
  req.elements_form.getD i {}

/-- The guard shared by every wizard step handler: GET requests check
`can_access_step`, POST requests check `can_proceed_to_step`
(study_creation.py lines 58-67 and their copies in each step). -/
def guardFails (d : StudyDraft) (s : StepId) (m : Method) : Bool :=
  if m == .get then !d.can_access_step s else !d.can_proceed_to_step s

/-- The flash raised when the wizard guard fails. -/
def flashWarn : String × String :=
  ("Please complete previous steps first.", "warning")

/-- Result of a wizard route: a redirect or a rendered template. -/
inductive CRes where
  | redirect (endpoint : String)
  | render (template : String)
deriving DecidableEq, Repr

/-- The outcome of one wizard step handler: the HTTP result, the flashed
messages, the draft as left in the database, whether the draft was deleted,
and the study created by a successful launch. -/
structure StepOut where
  res : CRes
  flashes : List (String × String) := []
  draft : StudyDraft
  draft_deleted : Bool := false
  created : Option Study := none
deriving DecidableEq, Repr

/-- `step1a` (study_creation.py lines 52-90). -/
def step1a (req : WReq) (d : StudyDraft) : StepOut :=
  if guardFails d .s1a req.method then
    { res := .redirect (StepId.guardRedirect .s1a), flashes := [flashWarn], draft := d }
  else if validate_on_submit req then
    let d1 := { d with step1a_data := some req.f1a, current_step := "1b" }
    { res := .redirect "study_creation.step1b",
      flashes := [("Basic details saved successfully!", "success")], draft := d1 }
  else
    { res := .render "study_creation/step1a.html", draft := d }

/-- `step1b` (study_creation.py lines 92-128). -/
def step1b (req : WReq) (d : StudyDraft) : StepOut :=
  if guardFails d .s1b req.method then
    { res := .redirect (StepId.guardRedirect .s1b), flashes := [flashWarn], draft := d }
  else if validate_on_submit req then
    let d1 := { d with step1b_data := some req.f1b, current_step := "1c" }
    { res := .redirect "study_creation.step1c",
      flashes := [("Study type and questions saved successfully!", "success")],
      draft := d1 }
  else
    { res := .render "study_creation/step1b.html", draft := d }

/-- `step1c` (study_creation.py lines 130-170). -/
def step1c (req : WReq) (d : StudyDraft) : StepOut :=
  if guardFails d .s1c req.method then
    { res := .redirect (StepId.guardRedirect .s1c), flashes := [flashWarn], draft := d }
  else if validate_on_submit req then
    let d1 := { d with step1c_data := some req.f1c, current_step := "2a" }
    { res := .redirect "study_creation.step2a",
      flashes := [("Rating scale configuration saved successfully!", "success")],
      draft := d1 }
  else
    { res := .render "study_creation/step1c.html", draft := d }

/-- The element-building loop of `step2a` (lines 196-234), over the indices
`0 .. num_elements - 1`: each element takes its text fields from the form;
for image studies a new upload must pass `save_uploaded_file`, otherwise the
kept current image is used, otherwise the loop stops with an error flash. -/
def processElements (req : WReq) (study_type : String) :
    List Nat → Except (String × String) (List ElementData)
  | [] => .ok []
  | i :: rest =>
    let ef := elemForm req i
    let base : ElementData :=
      { element_id := "E" ++ toString (i + 1), name := ef.name,
        description := ef.description, alt_text := ef.alt_text }
    if study_type == "image" then
      match ef.image with
      | some f =>
        if f.filename != "" then
          match save_uploaded_file (some f) ("element_" ++ toString i) with
          | some azure_url =>
            (processElements req study_type rest).map
              (fun tail =>
                { base with content := azure_url, element_type := "image" } :: tail)
          | none =>
            .error ("Failed to upload image for element " ++ toString (i + 1) ++
              ". Please check file type and size.", "error")
        else if ef.current_image != "" then
          (processElements req study_type rest).map
            (fun tail =>
              { base with content := ef.current_image, element_type := "image" } :: tail)
        else
          .error ("Image file is required for element " ++ toString (i + 1), "error")
      | none =>
        if ef.current_image != "" then
          (processElements req study_type rest).map
            (fun tail =>
              { base with content := ef.current_image, element_type := "image" } :: tail)
        else
          .error ("Image file is required for element " ++ toString (i + 1), "error")
    else
      (processElements req study_type rest).map
        (fun tail =>
          { base with content := ef.content, element_type := "text" } :: tail)

/-- `step2a` (study_creation.py lines 172-269). -/
def step2a (req : WReq) (d : StudyDraft) : StepOut :=
  if guardFails d .s2a req.method then
    { res := .redirect (StepId.guardRedirect .s2a), flashes := [flashWarn], draft := d }
  else
    let study_type := ((d.step1b_data.map (fun b => b.study_type)).getD "image")
    if req.method == .post then
      match processElements req study_type (List.range req.num_elements) with
      | .error fl =>
        { res := .render "study_creation/step2a.html", flashes := [fl], draft := d }
      | .ok elements_data =>
        let d1 := { d with
          step2a_data := some
            { elements := elements_data, study_type := study_type,
              num_elements := req.num_elements },
          current_step := "2b" }
        { res := .redirect "study_creation.step2b",
          flashes := [("Study elements saved successfully!", "success")], draft := d1 }
    else
      { res := .render "study_creation/step2a.html", draft := d }

/-- The question-building loop of `step2b` (lines 293-302). -/
def buildQuestions (req : WReq) : List ClassificationQuestion :=
  (List.range req.num_questions).map (fun i =>
    let q := req.questions_form.getD i {}
    { q with question_id := "Q" ++ toString (i + 1), order := i + 1 })

/-- `step2b` (study_creation.py lines 271-322). -/
def step2b (req : WReq) (d : StudyDraft) : StepOut :=
  if guardFails d .s2b req.method then
    { res := .redirect (StepId.guardRedirect .s2b), flashes := [flashWarn], draft := d }
  else if req.method == .post then
    let d1 := { d with
      step2b_data := some { questions := buildQuestions req },
      current_step := "2c" }
    { res := .redirect "study_creation.step2c",
      flashes := [("Classification questions saved successfully!", "success")],
      draft := d1 }
  else
    { res := .render "study_creation/step2b.html", draft := d }

/-- `step2c` (study_creation.py lines 324-372): on a validated submit the
draft stores the five IPED parameters together with
`total_tasks = tasks_per_consumer * number_of_respondents`. -/
def step2c (req : WReq) (d : StudyDraft) : StepOut :=
  if guardFails d .s2c req.method then
    { res := .redirect (StepId.guardRedirect .s2c), flashes := [flashWarn], draft := d }
  else if validate_on_submit req then
    let c := req.f2c
    let d1 := { d with
      step2c_data := some
        { num_elements := c.num_elements,
          tasks_per_consumer := c.tasks_per_consumer,
          number_of_respondents := c.number_of_respondents,
          min_active_elements := c.min_active_elements,
          max_active_elements := c.max_active_elements,
          total_tasks := c.tasks_per_consumer * c.number_of_respondents },
      current_step := "3a" }
    { res := .redirect "study_creation.step3a",
      flashes := [("IPED parameters saved successfully!", "success")], draft := d1 }
  else
    { res := .render "study_creation/step2c.html", draft := d }

/-- `step3a` (study_creation.py lines 374-460): the matrix is generated on a
validated submit or whenever no matrix is stored yet; missing step 2c data
raises inside the `try` and is flashed as an error. -/
def step3a (req : WReq) (d : StudyDraft) : StepOut :=
  if guardFails d .s3a req.method then
    { res := .redirect (StepId.guardRedirect .s3a), flashes := [flashWarn], draft := d }
  else if validate_on_submit req || d.step3a_data.isNone then
    match d.step2c_data with
    | none =>
      { res := .render "study_creation/step3a.html",
        flashes := [("Error generating task matrix: KeyError", "error")], draft := d }
    | some c =>
      let temp_study : Study :=
        { iped_parameters :=
          { num_elements := c.num_elements,
            tasks_per_consumer := c.tasks_per_consumer,
            number_of_respondents := c.number_of_respondents,
            min_active_elements := c.min_active_elements,
            max_active_elements := c.max_active_elements,
            total_tasks := c.total_tasks } }
      let tasks_matrix := temp_study.generate_tasks
      let d1 := { d with
        step3a_data := some
          { tasks_matrix := tasks_matrix,
            regenerate_matrix := req.regenerate_matrix },
        current_step := "3b" }
      { res := .redirect "study_creation.step3b",
        flashes := [("Task matrix generated successfully!", "success")], draft := d1 }
  else
    { res := .render "study_creation/step3a.html", draft := d }

/-- The study constructed by a successful launch in `step3b` (lines 494-567),
from the draft's step data. -/
def buildStudy (env : Env) (a : Step1aData) (b : Step1bData) (c : Step1cData)
    (ea : Step2aData) (eb : Step2bData) (ec : Step2cData) (ta : Step3aData) :
    Study :=
  { title := a.title, background := a.background, language := a.language,
    main_question := b.main_question, orientation_text := b.orientation_text,
    study_type := b.study_type, share_token := env.fresh_uuid,
    status := "active",
    rating_scale :=
      { min_value := c.min_value, max_value := c.max_value,
        min_label := c.min_label, max_label := c.max_label,
        middle_label := c.middle_label },
    elements := ea.elements.map (fun e =>
      { element_id := e.element_id, name := e.name,
        description := e.description, element_type := e.element_type,
        content := e.content, alt_text := e.alt_text }),
    classification_questions := eb.questions,
    iped_parameters :=
      { num_elements := ec.num_elements,
        tasks_per_consumer := ec.tasks_per_consumer,
        number_of_respondents := ec.number_of_respondents,
        min_active_elements := ec.min_active_elements,
        max_active_elements := ec.max_active_elements,
        total_tasks := ec.total_tasks },
    tasks := ta.tasks_matrix }

/-- `step3b` (study_creation.py lines 462-595): on a validated submit the 3b
state is stored first; the `try` block then builds and saves the study and
deletes the draft, flashing an error (and keeping the draft) if anything
raises. -/
def step3b (env : Env) (req : WReq) (d : StudyDraft) : StepOut :=
  if guardFails d .s3b req.method then
    { res := .redirect (StepId.guardRedirect .s3b), flashes := [flashWarn], draft := d }
  else if validate_on_submit req then
    let d1 := { d with step3b_data := some { launch_study := req.launch_study } }
    match d1.step1a_data, d1.step1b_data, d1.step1c_data, d1.step2a_data,
        d1.step2b_data, d1.step2c_data, d1.step3a_data with
    | some a, some b, some c, some ea, some eb, some ec, some ta =>
      if env.save_ok then
        let study := buildStudy env a b c ea eb ec ta
        { res := .redirect "dashboard.study_detail",
          flashes := [("Study created successfully!", "success")],
          draft := d1, draft_deleted := true, created := some study }
      else
        { res := .render "study_creation/step3b.html",
          flashes := [("Error creating study: OperationError", "error")],
          draft := d1 }
    | _, _, _, _, _, _, _ =>
      { res := .render "study_creation/step3b.html",
        flashes := [("Error creating study: KeyError", "error")], draft := d1 }
  else
    { res := .render "study_creation/step3b.html", draft := d }

/-- Dispatch a wizard request to the handler of the given step. -/
def runStep (env : Env) (s : StepId) (req : WReq) (d : StudyDraft) : StepOut :=
  match s with
  | .s1a => step1a req d
  | .s1b => step1b req d
  | .s1c => step1c req d
  | .s2a => step2a req d
  | .s2b => step2b req d
  | .s2c => step2c req d
  | .s3a => step3a req d
  | .s3b => step3b env req d

/-- `get_study_draft` (study_creation.py lines 17-27): the newest incomplete
draft of the current user from the database, or a freshly created and saved
one. The drafts list is kept newest first. -/
def get_study_draft (drafts : List StudyDraft) : StudyDraft × List StudyDraft :=
  match drafts.find? (fun d => !d.is_complete) with
  | some d => (d, drafts)
  | none =>
    let d : StudyDraft := { draft_id := drafts.length }
    (d, d :: drafts)

/-- The database and session state the wizard routes touch. -/
structure CreationState where
  session : Session := []
  drafts : List StudyDraft := []
  studies : List Study := []
deriving DecidableEq

/-- Persist an updated draft document. -/
def replaceDraft (ds : List StudyDraft) (d : StudyDraft) : List StudyDraft :=
  ds.map (fun q => if q.draft_id == d.draft_id then d else q)

/-- One full wizard request: fetch the draft with `get_study_draft`, run the
step handler, and persist (or delete) the draft. The session carries no
wizard state. -/
def handleStep (env : Env) (s : StepId) (req : WReq) (cst : CreationState) :
    StepOut × CreationState :=
  let (d, drafts1) := get_study_draft cst.drafts
  let out := runStep env s req d
  let drafts2 :=
    if out.draft_deleted then drafts1.filter (fun q => q.draft_id != d.draft_id)
    else replaceDraft drafts1 out.draft
  let studies1 :=
    match out.created with
    | some study => cst.studies ++ [study]
    | none => cst.studies
  (out, { session := cst.session, drafts := drafts2, studies := studies1 })

end study_creation

/-! ## Example fixtures

Concrete studies, responses and states used to instantiate the theorems. -/

/-- A small active study with one respondent slot and a two-task battery. -/
def exampleStudy : Study :=
  { share_token := "tok-1", status := "active",
    rating_scale := { min_value := 0, max_value := 5 },
    elements :=
      [{ element_id := "E1", element_type := "image", content := "u1" },
       { element_id := "E2", element_type := "image", content := "u2" }],
    iped_parameters :=
      { num_elements := 2, tasks_per_consumer := 2, number_of_respondents := 1,
        min_active_elements := 1, max_active_elements := 1, total_tasks := 2 },
    tasks :=
      [(0, [{ task_id := "0_0", elements_shown := [("E1", 1), ("E2", 0)] },
            { task_id := "0_1", elements_shown := [("E1", 0), ("E2", 1)] }])] }

/-- A respondent mid-study: one of two assigned tasks already completed. -/
def exampleResponse : StudyResponse :=
  { study_token := "tok-1", session_id := "sid-1", respondent_id := 0,
    total_tasks_assigned := 2,
    completed_tasks := [{ task_id := "0_0", rating_given := .int 3 }] }

/-- An inactive (draft-status) study. -/
def draftStudy : Study := { share_token := "tok-d", status := "draft" }

/-- A second active study with two respondent slots and no responses yet. -/
def exampleStudy2 : Study :=
  { share_token := "tok-2", status := "active",
    iped_parameters := { tasks_per_consumer := 3, number_of_respondents := 2 } }

/-- A participation state with the example study, the example response and a
live participation session holding an extra unrelated key. -/
def exampleState : PartState :=
  { session :=
      [("study_session_id", .str "sid-1"), ("study_share_token", .str "tok-1"),
       ("respondent_id", .int 0), ("csrf_token", .str "c")],
    studies := [exampleStudy], responses := [exampleResponse] }

/-- A draft with every wizard step's data present. -/
def completeDraft : StudyDraft :=
  { current_step := "3b",
    step1a_data := some {}, step1b_data := some {}, step1c_data := some {},
    step2a_data := some {}, step2b_data := some {}, step2c_data := some {},
    step3a_data := some {}, step3b_data := some {} }

/-- A valid small image upload. -/
def goodFile : UploadedFile := { filename := "cat.png", size_mb := 1 }

/-- An upload with a non-image extension. -/
def badFile : UploadedFile := { filename := "cat.exe", size_mb := 1 }

/-- A step-2a submission with one element carrying the valid upload. -/
def goodReq : study_creation.WReq :=
  { method := .post, form_valid := true, num_elements := 1,
    elements_form := [{ image := some goodFile }] }

/-- A step-2a submission with one element carrying the invalid upload. -/
def badReq : study_creation.WReq :=
  { method := .post, form_valid := true, num_elements := 1,
    elements_form := [{ image := some badFile }] }

/-! ## Helper lemmas -/

theorem find?_false_none {α : Type} (s : List α) (p : α → Bool)
    (h : ∀ a, p a = false) : s.find? p = none := by
  rw [List.find?_eq_none]
  intro x _
  rw [h x]
  simp

theorem sget_spop_self (s : Session) (k : String) : sget (spop s k) k = .null := by
  unfold sget spop
  rw [List.find?_filter, find?_false_none]
  intro a
  by_cases h1 : a.1 = k <;> simp [h1]

theorem sget_spop_ne (s : Session) (k q : String) (h : k ≠ q) :
    sget (spop s q) k = sget s k := by
  unfold sget spop
  rw [List.find?_filter]
  have he : (fun (a : String × Value) => decide ((a.1 != q) = true ∧ (a.1 == k) = true)) =
      (fun (a : String × Value) => a.1 == k) := by
    funext a
    by_cases h1 : a.1 = k
    · simp [h1, h]
    · simp [h1]
  rw [he]

theorem sget_sset_self (s : Session) (k : String) (v : Value) :
    sget (sset s k v) k = v := by
  unfold sget sset
  rw [List.find?_append, List.find?_filter, find?_false_none]
  · rw [List.find?_cons_of_pos _ (by simp)]
    rfl
  · intro a
    by_cases h1 : a.1 = k <;> simp [h1]

theorem sget_sset_ne (s : Session) (k q : String) (v : Value) (h : k ≠ q) :
    sget (sset s q v) k = sget s k := by
  unfold sget sset
  rw [List.find?_append, List.find?_filter]
  have he : (fun (a : String × Value) => decide ((a.1 != q) = true ∧ (a.1 == k) = true)) =
      (fun (a : String × Value) => a.1 == k) := by
    funext a
    by_cases h1 : a.1 = k
    · simp [h1, h]
    · simp [h1]
  rw [he, List.find?_cons_of_neg _ (by simpa using fun hq => h hq.symm),
    List.find?_nil, Option.or_none]

theorem countP_range_window (n a b : Nat) :
    (List.range n).countP (fun i => decide (a ≤ i ∧ i < a + b)) =
      min (a + b) n - min a n := by
  induction n with
  | zero => simp
  | succ n ih =>
    rw [List.range_succ, List.countP_append, ih]
    have hone : (List.countP (fun i => decide (a ≤ i ∧ i < a + b)) [n]) =
        if a ≤ n ∧ n < a + b then 1 else 0 := by
      by_cases h : a ≤ n ∧ n < a + b <;> simp [h]
    rw [hone]
    by_cases h : a ≤ n ∧ n < a + b <;> simp [h] <;> omega

theorem activeCount_eq (p : IPEDParameters) (r t : Nat) :
    (generate_task p r t).activeCount =
      let span := p.max_active_elements - p.min_active_elements + 1
      let k := p.min_active_elements + (r * p.tasks_per_consumer + t) % span
      let offset := (r + t) % (p.num_elements - k + 1)
      min (offset + k) p.num_elements - min offset p.num_elements := by
  unfold generate_task TaskSpec.activeCount
  simp only [List.countP_map]
  have he : ((fun (pr : String × Nat) => pr.2 == 1) ∘ fun i =>
      ("E" ++ toString (i + 1),
        if (r + t) % (p.num_elements -
            (p.min_active_elements + (r * p.tasks_per_consumer + t) %
              (p.max_active_elements - p.min_active_elements + 1)) + 1) ≤ i ∧
          i < (r + t) % (p.num_elements -
            (p.min_active_elements + (r * p.tasks_per_consumer + t) %
              (p.max_active_elements - p.min_active_elements + 1)) + 1) +
            (p.min_active_elements + (r * p.tasks_per_consumer + t) %
              (p.max_active_elements - p.min_active_elements + 1))
        then 1 else 0)) =
      (fun i => decide ((r + t) % (p.num_elements -
            (p.min_active_elements + (r * p.tasks_per_consumer + t) %
              (p.max_active_elements - p.min_active_elements + 1)) + 1) ≤ i ∧
          i < (r + t) % (p.num_elements -
            (p.min_active_elements + (r * p.tasks_per_consumer + t) %
              (p.max_active_elements - p.min_active_elements + 1)) + 1) +
            (p.min_active_elements + (r * p.tasks_per_consumer + t) %
              (p.max_active_elements - p.min_active_elements + 1)))) := by
    funext i
    by_cases h : (r + t) % (p.num_elements -
        (p.min_active_elements + (r * p.tasks_per_consumer + t) %
          (p.max_active_elements - p.min_active_elements + 1)) + 1) ≤ i ∧
        i < (r + t) % (p.num_elements -
          (p.min_active_elements + (r * p.tasks_per_consumer + t) %
            (p.max_active_elements - p.min_active_elements + 1)) + 1) +
          (p.min_active_elements + (r * p.tasks_per_consumer + t) %
            (p.max_active_elements - p.min_active_elements + 1)) <;>
      simp [h]
  rw [he, countP_range_window]

theorem activeCount_bounds (p : IPEDParameters) (r t : Nat)
    (h1 : p.min_active_elements ≤ p.max_active_elements)
    (h2 : p.max_active_elements ≤ p.num_elements) :
    p.min_active_elements ≤ (generate_task p r t).activeCount ∧
    (generate_task p r t).activeCount ≤ p.max_active_elements := by
  rw [activeCount_eq]
  have hspan : 0 < p.max_active_elements - p.min_active_elements + 1 := by omega
  have hmod := Nat.mod_lt (r * p.tasks_per_consumer + t) hspan
  have hk : p.min_active_elements + (r * p.tasks_per_consumer + t) %
      (p.max_active_elements - p.min_active_elements + 1) ≤
      p.max_active_elements := by omega
  have hoffpos : 0 < p.num_elements -
      (p.min_active_elements + (r * p.tasks_per_consumer + t) %
        (p.max_active_elements - p.min_active_elements + 1)) + 1 := by omega
  have hoff := Nat.mod_lt (r + t) hoffpos
  simp only []
  omega

theorem mem_replaceResponse {rs : List StudyResponse} {q r : StudyResponse}
    (hq : q ∈ rs) (h : q.session_id = r.session_id) :
    r ∈ replaceResponse rs r := by
  unfold replaceResponse
  refine List.mem_map.mpr ⟨q, hq, ?_⟩
  simp [h]

theorem findStudy_set_responses (st : PartState) (rs : List StudyResponse)
    (tok : String) :
    findStudy { st with responses := rs } tok = findStudy st tok := rfl

theorem update_task_session_eq (env : Env) (hsave : env.save_ok = true)
    (st1 : PartState) (session_id tid : String) :
    study_participation.update_task_session env st1 session_id tid =
      .ok (study_participation.taskSessionResult st1 session_id tid) := by
  unfold study_participation.update_task_session
    study_participation.taskSessionResult
  cases findTaskSession st1 session_id tid <;>
    simp [db_save, hsave, Bind.bind, Except.bind, Pure.pure, Except.pure]

theorem taskSessionResult_responses (st1 : PartState)
    (session_id tid : String) :
    (study_participation.taskSessionResult st1 session_id tid).responses =
      st1.responses := by
  unfold study_participation.taskSessionResult
  cases findTaskSession st1 session_id tid <;> rfl

/-! ## Claims -/

/-- Claim C8: when `get_available_respondent_id` returns `None`,
`start_study` replies HTTP 400 with JSON body error "Study is full" and
leaves the state unchanged: no `StudyResponse` is saved, `total_responses`
is not incremented, and no session key is set. -/
theorem C8_start_study_full (env : Env) (token : String) (info : BrowserInfo)
    (st : PartState) (study : Study)
    (hs : findStudy st token = some study)
    (ha : study.status = "active")
    (hfull : get_available_respondent_id study st = none) :
    study_participation.start_study env token info st =
      .ok (.json 400 [("error", .str "Study is full")], st) := by
  unfold study_participation.start_study
  rw [hs]
  simp [ha, hfull]

/-- Claim C8 witness: the example study has a single respondent slot, already
taken by the example response, so a second start is rejected as full. -/
theorem C8_start_study_full_witness :
    study_participation.start_study {} "tok-1" {} exampleState =
      .ok (.json 400 [("error", .str "Study is full")], exampleState) :=
  C8_start_study_full {} "tok-1" {} exampleState exampleStudy rfl rfl rfl

/-- Claim C4 counterexample: `start_study` wraps nothing in try/except; when
the database save of the new response raises, the exception escapes the
route unhandled instead of becoming a flash message or JSON error body. -/
theorem C4_start_study_exception_escapes :
    study_participation.start_study { save_ok := false } "tok-1" {}
      { studies := [exampleStudy] } =
      .error "OperationError: could not save document" := rfl

/-- Claim C4 (amended): only the routes that wrap their body in try/except
convert exceptions into error responses. `complete_task` (whose study
reference, dereferenced before its try, must resolve) and `abandon_study`
never let an exception escape: every run returns a response. -/
theorem C4_try_routes_convert_exceptions (env : Env) (token : String)
    (task_index : Nat) (req : CompleteReq) (reason : Option String)
    (st : PartState)
    (h : ∀ r, findResponse st (vstr (sget st.session "study_session_id")) = some r →
      (findStudy st r.study_token).isSome = true) :
    (∃ out, study_participation.complete_task env token task_index req st =
      .ok out) ∧
    (∃ out, study_participation.abandon_study env token reason st = .ok out) := by
  constructor
  · unfold study_participation.complete_task
    cases htr : truthy (sget st.session "study_session_id") with
    | false =>
      exact ⟨(.json 400 [("error", .str "No active session")], st), by simp [htr]⟩
    | true =>
      simp only [htr, Bool.not_true, Bool.false_eq_true, if_false]
      cases hr : findResponse st (vstr (sget st.session "study_session_id")) with
      | none =>
        exact ⟨(.json 400 [("error", .str "Study response not found")], st), rfl⟩
      | some r =>
        have hsome := h r hr
        cases hst : findStudy st r.study_token with
        | none => rw [hst] at hsome; cases hsome
        | some study =>
          cases hct : study_participation.complete_task_try env token task_index
              req (vstr (sget st.session "study_session_id")) r study st with
          | ok out => exact ⟨out, by simp only [hst, hct]⟩
          | error e =>
            exact ⟨(.json 500 [("error", .str e)], st), by simp only [hst, hct]⟩
  · unfold study_participation.abandon_study
    cases htr : truthy (sget st.session "study_session_id") with
    | false =>
      exact ⟨(.json 400 [("error", .str "No active session")], st), by simp [htr]⟩
    | true =>
      simp only [htr, Bool.not_true, Bool.false_eq_true, if_false]
      cases hr : findResponse st (vstr (sget st.session "study_session_id")) with
      | none =>
        exact ⟨(.json 400 [("error", .str "Study response not found")], st), rfl⟩
      | some r =>
        cases hct : study_participation.abandon_study_try env reason r st with
        | ok out => exact ⟨out, by simp only [hct]⟩
        | error e => exact ⟨(.json 500 [("error", .str e)], st), by simp only [hct]⟩

/-- Claim C4 amended witness: even with a failing database save, the two
try-wrapped routes return a response on the example state. -/
theorem C4_try_routes_convert_exceptions_witness :
    (∃ out, study_participation.complete_task { save_ok := false } "tok-1" 0 {}
      exampleState = .ok out) ∧
    (∃ out, study_participation.abandon_study { save_ok := false } "tok-1" none
      exampleState = .ok out) :=
  C4_try_routes_convert_exceptions { save_ok := false } "tok-1" 0 {} none
    exampleState
    (fun r hr => by
      have hr2 : (some exampleResponse : Option StudyResponse) = some r := hr
      rw [← Option.some.inj hr2]
      rfl)

/-- Claim C6 counterexample: `start_task` is a study-participation route, yet
with a share token matching no study (and no session) it replies 400
"No active session" — it never looks the study up by the token and does not
respond 404. -/
theorem C6_start_task_ignores_token :
    findStudy {} "no-such-token" = none ∧
    study_participation.start_task {} "no-such-token" 0 {} =
      .ok (.json 400 [("error", .str "No active session")], {}) ∧
    ((PRes.json 400 [("error", .str "No active session")]) ≠
      .json 404 [("error", .str "Study not found or inactive")] ∧
     (PRes.json 400 [("error", .str "No active session")]) ≠ .abortR 404) :=
  ⟨rfl, rfl, by decide, by decide⟩

/-- Claim C6 (amended): the participation routes that resolve the study by
its share token (the welcome page, the task page, `start_study`) respond 404
when the token matches no study — `start_study` also for an inactive study,
each time leaving the state unchanged so no respondent state is created —
while the session-scoped action routes such as `start_task` identify the
study through the session, ignore the token, and reply 400
"No active session" when no session exists. None of the handlers consults
any authentication state. -/
theorem C6_participation_lookup (token : String) (st : PartState) :
    (findStudy st token = none →
      study_participation.study_welcome token st = .abortR 404) ∧
    (findStudy st token = none → ∀ idx,
      study_participation.task_page token idx st = .abortR 404) ∧
    (∀ env info, findStudy st token = none →
      study_participation.start_study env token info st =
        .ok (.json 404 [("error", .str "Study not found or inactive")], st)) ∧
    (∀ env info study, findStudy st token = some study →
      study.status ≠ "active" →
      study_participation.start_study env token info st =
        .ok (.json 404 [("error", .str "Study not found or inactive")], st)) ∧
    (∀ env idx, truthy (sget st.session "study_session_id") = false →
      study_participation.start_task env token idx st =
        .ok (.json 400 [("error", .str "No active session")], st)) := by
  refine ⟨?_, ?_, ?_, ?_, ?_⟩
  · intro h
    unfold study_participation.study_welcome
    rw [h]
  · intro h idx
    unfold study_participation.task_page
    rw [h]
  · intro env info h
    unfold study_participation.start_study
    rw [h]
  · intro env info study h hna
    unfold study_participation.start_study
    rw [h]
    have hne : (study.status != "active") = true := by simpa using hna
    simp [hne]
  · intro env idx h
    unfold study_participation.start_task
    simp [h]

/-- Claim C6 amended witness: concrete instances — unknown token on the page
routes and on `start_study`, an inactive study on `start_study`, and a
sessionless `start_task`. -/
theorem C6_participation_lookup_witness :
    study_participation.study_welcome "t0" {} = .abortR 404 ∧
    study_participation.task_page "t0" 0 {} = .abortR 404 ∧
    study_participation.start_study {} "t0" {} {} =
      .ok (.json 404 [("error", .str "Study not found or inactive")], {}) ∧
    study_participation.start_study {} "tok-d" {} { studies := [draftStudy] } =
      .ok (.json 404 [("error", .str "Study not found or inactive")],
        { studies := [draftStudy] }) ∧
    study_participation.start_task {} "t0" 0 {} =
      .ok (.json 400 [("error", .str "No active session")], {}) :=
  ⟨(C6_participation_lookup "t0" {}).1 rfl,
   (C6_participation_lookup "t0" {}).2.1 rfl 0,
   (C6_participation_lookup "t0" {}).2.2.1 {} {} rfl,
   (C6_participation_lookup "tok-d" _).2.2.2.1 {} {} _ rfl (by decide),
   (C6_participation_lookup "t0" {}).2.2.2.2 {} 0 rfl⟩

/-- Claim C5 counterexample: a successful step-1a submission stores the
step's data and the advanced progress in the draft database document while
the session is exactly as before — the wizard's progress and per-step data
are not carried in the session cookie. -/
theorem C5_wizard_state_not_in_session :
    ((study_creation.handleStep {} .s1a
        { method := .post, form_valid := true,
          f1a := { title := "T", background := "B", language := "en",
                   terms_accepted := true } }
        { session := [("csrf_token", .str "c")] }).2.session =
      [("csrf_token", .str "c")]) ∧
    ((study_creation.handleStep {} .s1a
        { method := .post, form_valid := true,
          f1a := { title := "T", background := "B", language := "en",
                   terms_accepted := true } }
        { session := [("csrf_token", .str "c")] }).2.drafts.map
        (fun d => (d.step1a_data, d.current_step)) =
      [(some { title := "T", background := "B", language := "en",
               terms_accepted := true }, "1b")]) ∧
    ({ session := [("csrf_token", .str "c")] } :
      study_creation.CreationState).drafts = [] :=
  ⟨rfl, rfl, rfl⟩

/-- Claim C5 (amended): wizard state is database-backed, not session-backed:
every wizard request leaves the session unchanged, the draft document
carrying progress and step data instead — while respondent task progress is
carried in the session keys study_session_id, study_share_token and
respondent_id, set by a successful `start_study`. -/
theorem C5_wizard_db_backed (env : Env) (s : StepId)
    (req : study_creation.WReq) (cst : study_creation.CreationState)
    (token : String) (info : BrowserInfo) (st : PartState) (study : Study)
    (rid : Nat)
    (hs : findStudy st token = some study)
    (ha : study.status = "active")
    (hr : get_available_respondent_id study st = some rid)
    (hsave : env.save_ok = true) :
    ((study_creation.handleStep env s req cst).2.session = cst.session) ∧
    (∃ st1 body, study_participation.start_study env token info st =
        .ok (.json 200 body, st1) ∧
      sget st1.session "study_session_id" = .str env.fresh_uuid ∧
      sget st1.session "study_share_token" = .str token ∧
      sget st1.session "respondent_id" = .int rid) := by
  constructor
  · rfl
  · unfold study_participation.start_study
    rw [hs]
    have hne : (study.status != "active") = false := by simp [ha]
    simp only [hne, Bool.false_eq_true, if_false, hr, db_save, hsave, if_true,
      Bind.bind, Except.bind]
    refine ⟨_, _, rfl, ?_, ?_, ?_⟩
    · rw [sget_sset_ne _ _ _ _ (by decide), sget_sset_ne _ _ _ _ (by decide),
        sget_sset_self]
    · rw [sget_sset_ne _ _ _ _ (by decide), sget_sset_self]
    · rw [sget_sset_self]

/-- Claim C5 amended witness: a step-1b GET leaves the session of a concrete
state untouched, and a concrete successful `start_study` sets the three
respondent session keys. -/
theorem C5_wizard_db_backed_witness :
    ((study_creation.handleStep { fresh_uuid := "u-7" } .s1b {}
        { session := [("csrf_token", .str "c")] }).2.session =
      [("csrf_token", .str "c")]) ∧
    (∃ st1 body,
      study_participation.start_study { fresh_uuid := "u-7" } "tok-2" {}
          { studies := [exampleStudy2] } =
        .ok (.json 200 body, st1) ∧
      sget st1.session "study_session_id" = .str "u-7" ∧
      sget st1.session "study_share_token" = .str "tok-2" ∧
      sget st1.session "respondent_id" = .int 0) :=
  C5_wizard_db_backed { fresh_uuid := "u-7" } .s1b {}
    { session := [("csrf_token", .str "c")] }
    "tok-2" {} { studies := [exampleStudy2] } exampleStudy2 0 rfl rfl rfl rfl

/-- Claim C10: on their success paths, the completion page and a successful
`abandon_study` call remove exactly the three session keys
study_session_id, study_share_token and respondent_id — every other session
entry keeps its value and the three keys read as absent afterwards — so the
respondent no longer has an active participation session. -/
theorem C10_session_cleared (env : Env) (token : String)
    (reason : Option String) (st : PartState) (study studyR : Study)
    (resp : StudyResponse)
    (hstudy : findStudy st token = some study)
    (hsid : truthy (sget st.session "study_session_id") = true)
    (hresp : findResponse st (vstr (sget st.session "study_session_id")) =
      some resp)
    (hstR : findStudy st resp.study_token = some studyR)
    (hsave : env.save_ok = true) :
    (∃ st1, study_participation.study_completed token st =
        (.render "study_participation/completed.html", st1) ∧
      st1.session =
        spop (spop (spop st.session "study_session_id") "study_share_token")
          "respondent_id" ∧
      st1.studies = st.studies ∧ st1.responses = st.responses) ∧
    (∃ st2, study_participation.abandon_study env token reason st =
        .ok (.json 200 [("success", .bool true)], st2) ∧
      st2.session =
        spop (spop (spop st.session "study_session_id") "study_share_token")
          "respondent_id") ∧
    (∀ k, k ≠ "study_session_id" → k ≠ "study_share_token" →
      k ≠ "respondent_id" →
      sget (spop (spop (spop st.session "study_session_id")
        "study_share_token") "respondent_id") k = sget st.session k) ∧
    sget (spop (spop (spop st.session "study_session_id")
      "study_share_token") "respondent_id") "study_session_id" = .null ∧
    sget (spop (spop (spop st.session "study_session_id")
      "study_share_token") "respondent_id") "study_share_token" = .null ∧
    sget (spop (spop (spop st.session "study_session_id")
      "study_share_token") "respondent_id") "respondent_id" = .null := by
  refine ⟨?_, ?_, ?_, ?_, ?_, ?_⟩
  · unfold study_participation.study_completed
    rw [hstudy]
    simp only [hsid, Bool.not_true, Bool.false_eq_true, if_false]
    rw [hresp]
    exact ⟨_, rfl, rfl, rfl, rfl⟩
  · unfold study_participation.abandon_study
    simp only [hsid, Bool.not_true, Bool.false_eq_true, if_false]
    rw [hresp]
    unfold study_participation.abandon_study_try
    simp only [Bind.bind, Except.bind, db_save, hsave, if_true]
    rw [findStudy_set_responses, hstR]
    simp only [Bind.bind, Except.bind, Pure.pure, Except.pure]
    exact ⟨_, rfl, rfl⟩
  · intro k h1 h2 h3
    rw [sget_spop_ne _ _ _ h3, sget_spop_ne _ _ _ h2, sget_spop_ne _ _ _ h1]
  · rw [sget_spop_ne _ _ _ (by decide), sget_spop_ne _ _ _ (by decide),
      sget_spop_self]
  · rw [sget_spop_ne _ _ _ (by decide), sget_spop_self]
  · rw [sget_spop_self]

/-- Claim C10 witness: on the example state the completion page and a
successful abandon clear exactly the three keys; the unrelated csrf_token
entry keeps its value. -/
theorem C10_session_cleared_witness :
    (∃ st1, study_participation.study_completed "tok-1" exampleState =
        (.render "study_participation/completed.html", st1) ∧
      st1.session =
        spop (spop (spop exampleState.session "study_session_id")
          "study_share_token") "respondent_id" ∧
      st1.studies = exampleState.studies ∧
      st1.responses = exampleState.responses) ∧
    (∃ st2, study_participation.abandon_study {} "tok-1" none exampleState =
        .ok (.json 200 [("success", .bool true)], st2) ∧
      st2.session =
        spop (spop (spop exampleState.session "study_session_id")
          "study_share_token") "respondent_id") ∧
    sget (spop (spop (spop exampleState.session "study_session_id")
      "study_share_token") "respondent_id") "csrf_token" =
      sget exampleState.session "csrf_token" ∧
    sget (spop (spop (spop exampleState.session "study_session_id")
      "study_share_token") "respondent_id") "study_session_id" = .null :=
  have h := C10_session_cleared {} "tok-1" none exampleState exampleStudy
    exampleStudy exampleResponse rfl rfl rfl rfl rfl
  ⟨h.1, h.2.1,
   h.2.2.1 "csrf_token" (by decide) (by decide) (by decide),
   h.2.2.2.1⟩

/-- Claim C9 counterexample: a request with the falsy rating 0 (0 being
inside the example study's configured rating scale) but a missing
task_start_time is answered 500 — the timestamp is parsed before the rating
check and the TypeError is converted by the except block — not 400
"Rating is required". -/
theorem C9_zero_rating_missing_time_500 :
    study_participation.complete_task {} "tok-1" 0
      { rating := .int 0, task_start_time := .missing } exampleState =
      .ok (.json 500
        [("error", .str "TypeError: fromisoformat: argument must be str")],
        exampleState) ∧
    truthy (Value.int 0) = false ∧
    exampleStudy.rating_scale.min_value = 0 ∧
    ((PRes.json 500
        [("error", .str "TypeError: fromisoformat: argument must be str")]) ≠
      .json 400 [("error", .str "Rating is required")]) :=
  ⟨rfl, rfl, rfl, by decide⟩

/-- Claim C9 (amended): among requests whose task_start_time parses,
`complete_task` rejects every one whose rating is missing or falsy —
including a rating of 0, even when 0 is within the study's configured rating
scale — with HTTP 400 "Rating is required", leaving the state unchanged: no
completed task is added and no counter changes. A falsy-rating request whose
task_start_time is missing or malformed is answered 500 instead. -/
theorem C9_falsy_rating_rejected (env : Env) (token : String)
    (task_index : Nat) (req : CompleteReq) (st : PartState)
    (resp : StudyResponse) (study : Study) (t : Int)
    (hsid : truthy (sget st.session "study_session_id") = true)
    (hresp : findResponse st (vstr (sget st.session "study_session_id")) =
      some resp)
    (hstudy : findStudy st resp.study_token = some study)
    (htime : fromisoformat req.task_start_time = .ok t)
    (hrate : truthy req.rating = false) :
    study_participation.complete_task env token task_index req st =
      .ok (.json 400 [("error", .str "Rating is required")], st) := by
  have htry : study_participation.complete_task_try env token task_index req
      (vstr (sget st.session "study_session_id")) resp study st =
      .ok (.json 400 [("error", .str "Rating is required")], st) := by
    unfold study_participation.complete_task_try
    rw [htime]
    simp only [Bind.bind, Except.bind, hrate, Bool.not_false, if_true,
      Pure.pure, Except.pure]
  unfold study_participation.complete_task
  simp only [hsid, Bool.not_true, Bool.false_eq_true, if_false, hresp, hstudy,
    htry]

/-- Claim C9 amended witness: rating 0 with a parseable start time on the
example state is rejected with the 400 body. -/
theorem C9_falsy_rating_rejected_witness :
    study_participation.complete_task {} "tok-1" 1
      { rating := .int 0, task_start_time := .valid 100 } exampleState =
      .ok (.json 400 [("error", .str "Rating is required")], exampleState) :=
  C9_falsy_rating_rejected {} "tok-1" 1
    { rating := .int 0, task_start_time := .valid 100 } exampleState
    exampleResponse exampleStudy 100 rfl rfl rfl rfl rfl

/-- Claim C1: a respondent cannot exceed the assigned task count. For a task
index at or beyond the respondent's battery, `task_page` aborts 404 and
`complete_task` (on a request passing the earlier rating/timestamp checks)
replies 400 "Invalid task index" with the state unchanged, so no completed
task is recorded; and when a completed submission brings the respondent's
completed task count up to `total_tasks_assigned`, `complete_task` marks the
response completed and redirects to the completion page instead of a further
task. -/
theorem C1_task_count_invariant (env : Env) (token : String)
    (task_index : Nat) (req : CompleteReq) (st : PartState)
    (resp : StudyResponse) (study : Study) (t : Int)
    (hsid : truthy (sget st.session "study_session_id") = true)
    (hresp : findResponse st (vstr (sget st.session "study_session_id")) =
      some resp)
    (hstudy : findStudy st resp.study_token = some study)
    (htime : fromisoformat req.task_start_time = .ok t)
    (hrate : truthy req.rating = true) :
    (findStudy st token = some study → study.status = "active" →
      task_index ≥ (study.get_respondent_tasks resp.respondent_id).length →
      study_participation.task_page token task_index st = .abortR 404) ∧
    (task_index ≥ (study.get_respondent_tasks resp.respondent_id).length →
      study_participation.complete_task env token task_index req st =
        .ok (.json 400 [("error", .str "Invalid task index")], st)) ∧
    (∀ interactions,
      parseInteractions req.element_interactions = .ok interactions →
      env.save_ok = true →
      task_index < (study.get_respondent_tasks resp.respondent_id).length →
      resp.completed_tasks.length + 1 ≥ resp.total_tasks_assigned →
      ∃ st1,
        study_participation.complete_task env token task_index req st =
          .ok (.json 200
            [("success", .bool true), ("study_completed", .bool true),
             ("redirect_url", .str "study_participation.study_completed")],
            st1) ∧
        ∃ resp1, resp1 ∈ st1.responses ∧
          resp1.session_id = resp.session_id ∧
          resp1.is_completed = true) := by
  refine ⟨?_, ?_, ?_⟩
  · intro hst hact hidx
    unfold study_participation.task_page
    rw [hst]
    have hne : (study.status != "active") = false := by simp [hact]
    simp only [hne, Bool.false_eq_true, if_false, hsid, Bool.not_true, hresp]
    have hguard : ((study.get_respondent_tasks resp.respondent_id).isEmpty ||
        decide (task_index ≥
          (study.get_respondent_tasks resp.respondent_id).length)) = true := by
      simp [hidx]
    simp only [hguard, if_true]
  · intro hidx
    have htry : study_participation.complete_task_try env token task_index req
        (vstr (sget st.session "study_session_id")) resp study st =
        .ok (.json 400 [("error", .str "Invalid task index")], st) := by
      unfold study_participation.complete_task_try
      rw [htime]
      have hguard : ((study.get_respondent_tasks resp.respondent_id).isEmpty ||
          decide (task_index ≥
            (study.get_respondent_tasks resp.respondent_id).length)) = true := by
        simp [hidx]
      simp only [Bind.bind, Except.bind, hrate, Bool.not_true,
        Bool.false_eq_true, if_false, hguard, if_true, Pure.pure, Except.pure]
    unfold study_participation.complete_task
    simp only [hsid, Bool.not_true, Bool.false_eq_true, if_false, hresp,
      hstudy, htry]
  · intro interactions hint hsave hlt hcount
    have hmem : resp ∈ st.responses := List.mem_of_find?_eq_some hresp
    have hne : study.get_respondent_tasks resp.respondent_id ≠ [] := by
      intro h
      rw [h] at hlt
      simp at hlt
    have hguard : ((study.get_respondent_tasks resp.respondent_id).isEmpty ||
        decide (task_index ≥
          (study.get_respondent_tasks resp.respondent_id).length)) = false := by
      rw [Bool.or_eq_false_iff]
      constructor
      · simpa [List.isEmpty_iff] using hne
      · simpa using hlt
    have hth : ∀ ct : CompletedTask,
        (resp.add_completed_task ct).completed_tasks_count ≥
          (resp.add_completed_task ct).total_tasks_assigned := by
      intro ct
      unfold StudyResponse.add_completed_task
        StudyResponse.completed_tasks_count
      simp only [List.length_append, List.length_cons, List.length_nil]
      omega
    unfold study_participation.complete_task
    simp only [hsid, Bool.not_true, Bool.false_eq_true, if_false, hresp,
      hstudy]
    unfold study_participation.complete_task_try
    rw [htime]
    simp only [Bind.bind, Except.bind, hrate, Bool.not_true,
      Bool.false_eq_true, if_false, hguard, hint, db_save, hsave, if_true,
      Pure.pure, Except.pure, update_task_session_eq env hsave]
    rw [if_pos (hth _)]
    refine ⟨_, rfl, ?_⟩
    simp only [taskSessionResult_responses]
    exact ⟨_, mem_replaceResponse (mem_replaceResponse hmem rfl) rfl, rfl, rfl⟩

/-- Claim C1 witness: on the example state (battery of two tasks, one
already completed), index 2 is rejected by both routes, and completing index
1 reaches the assigned total and marks the response completed. -/
theorem C1_task_count_invariant_witness :
    study_participation.task_page "tok-1" 2 exampleState = .abortR 404 ∧
    study_participation.complete_task {} "tok-1" 2
      { rating := .int 3, task_start_time := .valid 100 } exampleState =
      .ok (.json 400 [("error", .str "Invalid task index")], exampleState) ∧
    (∃ st1,
      study_participation.complete_task {} "tok-1" 1
        { rating := .int 3, task_start_time := .valid 100 } exampleState =
        .ok (.json 200
          [("success", .bool true), ("study_completed", .bool true),
           ("redirect_url", .str "study_participation.study_completed")],
          st1) ∧
      ∃ resp1, resp1 ∈ st1.responses ∧
        resp1.session_id = exampleResponse.session_id ∧
        resp1.is_completed = true) :=
  have h := C1_task_count_invariant {} "tok-1" 2
    { rating := .int 3, task_start_time := .valid 100 } exampleState
    exampleResponse exampleStudy 100 rfl rfl rfl rfl rfl
  have h1 := C1_task_count_invariant {} "tok-1" 1
    { rating := .int 3, task_start_time := .valid 100 } exampleState
    exampleResponse exampleStudy 100 rfl rfl rfl rfl rfl
  ⟨h.1 rfl rfl (by decide), h.2.1 (by decide),
   h1.2.2 [] rfl rfl (by decide) (by decide)⟩

set_option maxHeartbeats 2000000 in
/-- Claim C2: a draft cannot skip wizard steps. Whenever the guard fails — a
GET without `can_access_step` or a POST without `can_proceed_to_step` — the
step handler redirects to the preceding step's route with the warning
"Please complete previous steps first." and leaves the draft untouched; and
whenever a step handler redirects onward to the next step's route, the saved
draft's `current_step` has been advanced to exactly that next step in the
fixed order 1a, 1b, 1c, 2a, 2b, 2c, 3a, 3b. -/
theorem C2_wizard_steps_guarded (env : Env) (s : StepId)
    (req : study_creation.WReq) (d : StudyDraft) :
    (study_creation.guardFails d s req.method = true →
      study_creation.runStep env s req d =
        { res := .redirect s.guardRedirect,
          flashes := [study_creation.flashWarn], draft := d }) ∧
    (∀ s1, s.next = some s1 →
      (study_creation.runStep env s req d).res = .redirect s1.route →
      (study_creation.runStep env s req d).draft.current_step = s1.name) := by
  constructor
  · intro hg
    cases s <;>
      simp only [study_creation.runStep, study_creation.step1a,
        study_creation.step1b, study_creation.step1c, study_creation.step2a,
        study_creation.step2b, study_creation.step2c, study_creation.step3a,
        study_creation.step3b, hg, if_true, StepId.guardRedirect]
  · intro s1 hs1
    cases s <;> cases hs1 <;>
      simp only [study_creation.runStep, study_creation.step1a,
        study_creation.step1b, study_creation.step1c, study_creation.step2a,
        study_creation.step2b, study_creation.step2c,
        study_creation.step3a] <;>
      split <;> (try split) <;> (try split) <;> intro hres <;>
      first
        | rfl
        | simp_all [StepId.route, StepId.guardRedirect, StepId.name]

/-- Claim C2 witness: a GET on step 1b with a fresh draft redirects back to
step 1a with the warning, draft unchanged; a validated POST on step 1a
advances the draft to step 1b. -/
theorem C2_wizard_steps_guarded_witness :
    (study_creation.runStep {} .s1b { method := .get } {} =
      { res := .redirect "study_creation.step1a",
        flashes := [study_creation.flashWarn], draft := {} }) ∧
    (study_creation.runStep {} .s1a
      { method := .post, form_valid := true } {}).draft.current_step = "1b" :=
  ⟨(C2_wizard_steps_guarded {} .s1b { method := .get } {}).1 rfl,
   (C2_wizard_steps_guarded {} .s1a { method := .post, form_valid := true }
     {}).2 .s1b rfl rfl⟩

/-- Claim C3: the generated task matrix holds one battery of
`tasks_per_consumer` tasks for each of the `number_of_respondents`
respondents; every task carries a 0/1 flag per element id, with the number
of active elements between `min_active_elements` and `max_active_elements`;
and a validated step-2c submission stores
`total_tasks = tasks_per_consumer * number_of_respondents`. -/
theorem C3_task_matrix (s : Study)
    (h1 : s.iped_parameters.min_active_elements ≤
      s.iped_parameters.max_active_elements)
    (h2 : s.iped_parameters.max_active_elements ≤
      s.iped_parameters.num_elements) :
    (s.generate_tasks.length = s.iped_parameters.number_of_respondents) ∧
    (∀ rt ∈ s.generate_tasks,
      rt.2.length = s.iped_parameters.tasks_per_consumer ∧
      ∀ task ∈ rt.2,
        task.elements_shown.length = s.iped_parameters.num_elements ∧
        (∀ pr ∈ task.elements_shown, pr.2 = 0 ∨ pr.2 = 1) ∧
        s.iped_parameters.min_active_elements ≤ task.activeCount ∧
        task.activeCount ≤ s.iped_parameters.max_active_elements) ∧
    (∀ (req : study_creation.WReq) (d : StudyDraft),
      req.method = .post → d.can_proceed_to_step .s2c = true →
      req.form_valid = true →
      ((study_creation.step2c req d).draft.step2c_data.map
        (fun c => c.total_tasks)) =
        some (req.f2c.tasks_per_consumer * req.f2c.number_of_respondents)) := by
  refine ⟨?_, ?_, ?_⟩
  · unfold Study.generate_tasks
    simp
  · intro rt hrt
    unfold Study.generate_tasks at hrt
    simp only [List.mem_map, List.mem_range] at hrt
    obtain ⟨r, hr, rfl⟩ := hrt
    constructor
    · simp
    · intro task htask
      simp only [List.mem_map, List.mem_range] at htask
      obtain ⟨t, ht, rfl⟩ := htask
      refine ⟨?_, ?_, ?_, ?_⟩
      · unfold generate_task
        simp
      · intro pr hpr
        unfold generate_task at hpr
        simp only [List.mem_map, List.mem_range] at hpr
        obtain ⟨i, hi, rfl⟩ := hpr
        dsimp only
        split
        · right
          rfl
        · left
          rfl
      · exact (activeCount_bounds s.iped_parameters r t h1 h2).1
      · exact (activeCount_bounds s.iped_parameters r t h1 h2).2
  · intro req d hm hcp hv
    unfold study_creation.step2c
    have hg : study_creation.guardFails d .s2c req.method = false := by
      unfold study_creation.guardFails
      rw [hm]
      simp [hcp]
    have hvs : study_creation.validate_on_submit req = true := by
      unfold study_creation.validate_on_submit
      rw [hm, hv]
      rfl
    simp [hg, hvs]

/-- Claim C3 witness: the example study's matrix has the right shape and a
concrete validated step-2c submission stores total_tasks 2 * 1 = 2. -/
theorem C3_task_matrix_witness :
    exampleStudy.generate_tasks.length =
      exampleStudy.iped_parameters.number_of_respondents ∧
    ((study_creation.step2c
        { method := .post, form_valid := true,
          f2c := { num_elements := 2, tasks_per_consumer := 2,
                   number_of_respondents := 1, min_active_elements := 1,
                   max_active_elements := 1 } }
        completeDraft).draft.step2c_data.map (fun c => c.total_tasks)) =
      some 2 :=
  have h := C3_task_matrix exampleStudy (by decide) (by decide)
  ⟨h.1, h.2.2 _ completeDraft rfl (by decide) rfl⟩

theorem save_uploaded_file_some {f : UploadedFile} {sid u : String}
    (h : study_creation.save_uploaded_file (some f) sid = some u) :
    u = upload_to_azure f := by
  simp only [study_creation.save_uploaded_file] at h
  by_cases h1 : (f.filename != "") = true
  · rw [if_pos h1] at h
    by_cases h2 : (!is_valid_image_file f.filename) = true
    · rw [if_pos h2] at h
      cases h
    · rw [if_neg h2] at h
      by_cases h3 : get_file_size_mb f > 16
      · rw [if_pos h3] at h
        cases h
      · rw [if_neg h3] at h
        exact (Option.some.inj h).symm
  · rw [if_neg h1] at h
    cases h

theorem except_map_cons_ok {α : Type} (e : Except (String × String) (List α))
    (hd : α) (es : List α)
    (h : e.map (fun tail => hd :: tail) = .ok es) :
    ∃ tail, e = .ok tail ∧ es = hd :: tail := by
  cases e with
  | ok t =>
    simp only [Except.map] at h
    exact ⟨t, rfl, (Except.ok.inj h).symm⟩
  | error m =>
    simp only [Except.map] at h
    cases h

theorem processElements_error_of_failed_upload (req : study_creation.WReq)
    (idxs : List Nat) (i : Nat) (f : UploadedFile) (hi : i ∈ idxs)
    (himg : (study_creation.elemForm req i).image = some f)
    (hfn : f.filename ≠ "")
    (hfail : study_creation.save_uploaded_file (some f)
      ("element_" ++ toString i) = none) :
    ∃ msg, study_creation.processElements req "image" idxs = .error msg := by
  induction idxs with
  | nil => cases hi
  | cons j rest ih =>
    rcases List.mem_cons.mp hi with hji | hirest
    · subst hji
      simp only [study_creation.processElements, himg, beq_self_eq_true,
        if_true]
      have hfn2 : (f.filename != "") = true := by simpa using hfn
      rw [if_pos hfn2, hfail]
      exact ⟨_, rfl⟩
    · obtain ⟨m, hm⟩ := ih hirest
      simp only [study_creation.processElements, hm, beq_self_eq_true,
        if_true, Except.map]
      split <;> (try split) <;> (try split) <;> exact ⟨_, rfl⟩

theorem processElements_ok_spec (req : study_creation.WReq)
    (idxs : List Nat) (es : List ElementData)
    (h : study_creation.processElements req "image" idxs = .ok es) :
    es.length = idxs.length ∧
    ∀ pr ∈ idxs.zip es, ∀ f : UploadedFile,
      (study_creation.elemForm req pr.1).image = some f → f.filename ≠ "" →
      pr.2.content = upload_to_azure f ∧ pr.2.element_type = "image" := by
  induction idxs generalizing es with
  | nil =>
    simp only [study_creation.processElements] at h
    cases h
    refine ⟨rfl, ?_⟩
    intro pr hpr
    cases hpr
  | cons i rest ih =>
    simp only [study_creation.processElements, beq_self_eq_true, if_true] at h
    cases himg : (study_creation.elemForm req i).image with
    | some f0 =>
      simp only [himg] at h
      by_cases hfn0 : (f0.filename != "") = true
      · rw [if_pos hfn0] at h
        cases hsave : study_creation.save_uploaded_file (some f0)
            ("element_" ++ toString i) with
        | some url =>
          simp only [hsave] at h
          obtain ⟨tail, hrest, rfl⟩ := except_map_cons_ok _ _ _ h
          obtain ⟨hlen, hspec⟩ := ih tail hrest
          refine ⟨by simp [hlen], ?_⟩
          intro pr hpr f himg2 hfn2
          rw [List.zip_cons_cons] at hpr
          rcases List.mem_cons.mp hpr with rfl | hmem
          · have hf : f = f0 := by
              rw [himg] at himg2
              exact (Option.some.inj himg2).symm
            subst hf
            exact ⟨save_uploaded_file_some hsave, rfl⟩
          · exact hspec pr hmem f himg2 hfn2
        | none =>
          rw [hsave] at h
          simp at h
      · rw [if_neg hfn0] at h
        by_cases hcur :
            ((study_creation.elemForm req i).current_image != "") = true
        · rw [if_pos hcur] at h
          obtain ⟨tail, hrest, rfl⟩ := except_map_cons_ok _ _ _ h
          obtain ⟨hlen, hspec⟩ := ih tail hrest
          refine ⟨by simp [hlen], ?_⟩
          intro pr hpr f himg2 hfn2
          rw [List.zip_cons_cons] at hpr
          rcases List.mem_cons.mp hpr with rfl | hmem
          · have hf : f = f0 := by
              rw [himg] at himg2
              exact (Option.some.inj himg2).symm
            subst hf
            have : f.filename = "" := by simpa using hfn0
            exact absurd this hfn2
          · exact hspec pr hmem f himg2 hfn2
        · rw [if_neg hcur] at h
          cases h
    | none =>
      simp only [himg] at h
      by_cases hcur :
          ((study_creation.elemForm req i).current_image != "") = true
      · rw [if_pos hcur] at h
        obtain ⟨tail, hrest, rfl⟩ := except_map_cons_ok _ _ _ h
        obtain ⟨hlen, hspec⟩ := ih tail hrest
        refine ⟨by simp [hlen], ?_⟩
        intro pr hpr f himg2 hfn2
        rw [List.zip_cons_cons] at hpr
        rcases List.mem_cons.mp hpr with rfl | hmem
        · rw [himg] at himg2
          cases himg2
        · exact hspec pr hmem f himg2 hfn2
      · rw [if_neg hcur] at h
        cases h

/-- Claim C7: uploads are proxied to blob storage. A file with a valid image
filename and size at most 16 MB makes `save_uploaded_file` return the Azure
blob URL; an invalid type or a size over 16 MB makes it return `None`. On an
image-study step-2a submission, a failing upload re-renders the step with an
error flash and an unchanged draft, while a fully successful submission
stores each newly uploaded element with the blob URL as its content. -/
theorem C7_upload_proxied (f : UploadedFile) (sid : String)
    (req : study_creation.WReq) (d : StudyDraft) :
    (f.filename ≠ "" → is_valid_image_file f.filename = true →
      get_file_size_mb f ≤ 16 →
      study_creation.save_uploaded_file (some f) sid =
        some (upload_to_azure f)) ∧
    (f.filename ≠ "" →
      (is_valid_image_file f.filename = false ∨ get_file_size_mb f > 16) →
      study_creation.save_uploaded_file (some f) sid = none) ∧
    (req.method = .post → d.can_proceed_to_step .s2a = true →
      ((d.step1b_data.map (fun b => b.study_type)).getD "image") = "image" →
      ∀ i fi, i ∈ List.range req.num_elements →
        (study_creation.elemForm req i).image = some fi → fi.filename ≠ "" →
        study_creation.save_uploaded_file (some fi)
          ("element_" ++ toString i) = none →
        ∃ msg, study_creation.step2a req d =
          { res := .render "study_creation/step2a.html", flashes := [msg],
            draft := d }) ∧
    (req.method = .post → d.can_proceed_to_step .s2a = true →
      ((d.step1b_data.map (fun b => b.study_type)).getD "image") = "image" →
      ∀ es, study_creation.processElements req "image"
          (List.range req.num_elements) = .ok es →
        (study_creation.step2a req d).draft.step2a_data =
          some { elements := es, study_type := "image",
                 num_elements := req.num_elements } ∧
        ∀ pr ∈ (List.range req.num_elements).zip es,
          ∀ fi : UploadedFile,
          (study_creation.elemForm req pr.1).image = some fi →
          fi.filename ≠ "" →
          pr.2.content = upload_to_azure fi ∧
          pr.2.element_type = "image") := by
  refine ⟨?_, ?_, ?_, ?_⟩
  · intro hfn hvalid hsize
    simp only [study_creation.save_uploaded_file]
    rw [if_pos (by simpa using hfn), if_neg (by simp [hvalid]),
      if_neg (not_lt.mpr hsize)]
  · intro hfn hbad
    simp only [study_creation.save_uploaded_file]
    rw [if_pos (by simpa using hfn)]
    by_cases hv2 : is_valid_image_file f.filename = true
    · rcases hbad with hv | hs
      · rw [hv2] at hv
        cases hv
      · rw [if_neg (by simp [hv2]), if_pos hs]
    · rw [if_pos (by simp [Bool.not_eq_true] at hv2; simp [hv2])]
  · intro hm hcp hty i fi hi himg hfn hfail
    obtain ⟨msg, hmsg⟩ := processElements_error_of_failed_upload req
      (List.range req.num_elements) i fi hi himg hfn hfail
    refine ⟨msg, ?_⟩
    unfold study_creation.step2a
    have hg : study_creation.guardFails d .s2a req.method = false := by
      unfold study_creation.guardFails
      rw [hm]
      simp [hcp]
    have hmp : (req.method == study_creation.Method.post) = true := by
      rw [hm]
      rfl
    simp only [hg, Bool.false_eq_true, if_false, hty, hmp, if_true, hmsg]
  · intro hm hcp hty es hok
    obtain ⟨hlen, hspec⟩ := processElements_ok_spec req _ es hok
    have hg : study_creation.guardFails d .s2a req.method = false := by
      unfold study_creation.guardFails
      rw [hm]
      simp [hcp]
    have hmp : (req.method == study_creation.Method.post) = true := by
      rw [hm]
      rfl
    constructor
    · unfold study_creation.step2a
      simp only [hg, Bool.false_eq_true, if_false, hty, hmp, if_true, hok]
    · intro pr hpr fi himg2 hfn2
      exact hspec pr hpr fi himg2 hfn2

/-- Claim C7 witness: the valid upload yields its blob URL and is stored as
the element content; the invalid upload yields `None` and step 2a re-renders
with an error flash, draft unchanged. -/
theorem C7_upload_proxied_witness :
    study_creation.save_uploaded_file (some goodFile) "element_0" =
      some (upload_to_azure goodFile) ∧
    study_creation.save_uploaded_file (some badFile) "element_0" = none ∧
    (∃ msg, study_creation.step2a badReq completeDraft =
      { res := .render "study_creation/step2a.html", flashes := [msg],
        draft := completeDraft }) ∧
    (study_creation.step2a goodReq completeDraft).draft.step2a_data =
      some { elements := [{ element_id := "E1", element_type := "image",
                            content := upload_to_azure goodFile }],
             study_type := "image", num_elements := 1 } :=
  have hgood := C7_upload_proxied goodFile "element_0" goodReq completeDraft
  have hbad := C7_upload_proxied badFile "element_0" badReq completeDraft
  ⟨hgood.1 (by decide) (by decide) (by norm_num [get_file_size_mb, goodFile]),
   hbad.2.1 (by decide) (Or.inl (by decide)),
   hbad.2.2.1 rfl (by decide) rfl 0 badFile (by decide) rfl (by decide) rfl,
   (hgood.2.2.2 rfl (by decide) rfl
     [{ element_id := "E1", element_type := "image",
        content := upload_to_azure goodFile }] rfl).1⟩

end InniImage
